import Mathlib

/-!
Shallow embedding of the typed-transaction subsystem of zksync-web3-rs
(source file src/zks_wallet/wallet.rs), together with the parts of the
eip712 and zks_utils modules it uses; those modules are not part of the
repository snapshot, so their definitions are modelled from the
specification (each such definition carries a doc comment starting with
"Modelled from the spec:").

External collaborators (provider RPC calls, the ECDSA signer, the ABI
encoder from ethers, the cryptographic digest) are modelled as an explicit
environment `Env`.  Each wallet operation returns its result together with
the ordered trace of external calls it performed, so that claims about
"what was submitted", "what was signed" and "in which order" are stated
over observable data.  Rust `Result` values become `Outcome.ok` and
`Outcome.err`; a Rust `unwrap` panic becomes `Outcome.panic`.  Machine
integers (U256, addresses) are modelled as `Nat`.
-/

namespace ZKS

/-- Modelled from the spec: the protocol's fixed extended-transaction-type
tag byte (constant `EIP712_TX_TYPE` of module zks_utils, not under src/). -/
def EIP712_TX_TYPE : Nat := 113

/-- Modelled from the spec: the Era network chain id (constant
`ERA_CHAIN_ID` of module zks_utils, not under src/). -/
def ERA_CHAIN_ID : Nat := 270

/-- Modelled from the spec: the fixed deployer contract address (constant
`CONTRACT_DEPLOYER_ADDR` of module zks_utils, not under src/), as a
160-bit number. -/
def CONTRACT_DEPLOYER_ADDR : Nat := 0x8006

/-- Modelled from the spec: the protocol-defined default for the
gas-per-pubdata-byte limit of the custom-data block (spec section 3). -/
def DEFAULT_GAS_PER_PUBDATA_LIMIT : Nat := 800

/-- Modelled from the spec: the fixed version-marker byte of the bytecode
hash (spec section 4.1). -/
def BYTECODE_VERSION_BYTE : Nat := 1

/-- Errors of the wallet operations.  The error enums (`ZKSWalletError`,
the bytecode-hashing errors and the ethers constructor error folded into
it by the `From` conversions that the `?` operator applies) live outside
src/ and are modelled from the spec's error-kind list (spec section 7). -/
inductive ZKSWalletError where
  | CustomError (msg : String)
  | ProviderError (msg : String)
  | MissingField (field : String)
  | UnexpectedConstructorArguments
  | InvalidBytecodeLength
  | BytecodeTooLong
  deriving DecidableEq

/-- Result of running an operation: an `ok` value, an error returned to the
caller (Rust `Err`), or a process abort (Rust panic from `unwrap`). -/
inductive Outcome (α : Type) where
  | ok (a : α)
  | err (e : ZKSWalletError)
  | panic (msg : String)
  deriving DecidableEq

/-- Fee estimate returned by the provider collaborator (spec section 6). -/
structure Fee where
  maxFeePerGas : Nat
  maxPriorityFeePerGas : Nat
  gasLimit : Nat
  deriving DecidableEq

/-- The slice of ethers `TransactionReceipt` that wallet.rs consumes. -/
structure TransactionReceipt where
  contractAddress : Option Nat := none
  deriving DecidableEq

/-- Modelled from the spec: the custom-data block `Eip712Meta` (crate
module eip712, not under src/): gas-per-pubdata limit with its protocol
default, ordered factory-dependency bytecodes, signature bytes that stay
absent until signing completes, and optional paymaster parameters
(spec section 3). -/
structure Eip712Meta where
  gasPerPubdata : Nat := DEFAULT_GAS_PER_PUBDATA_LIMIT
  factoryDeps : List (List Nat) := []
  customSignature : Option (List Nat) := none
  paymasterParams : Option (Nat × List Nat) := none
  deriving DecidableEq

/-- `Eip712Meta::new()`. -/
def Eip712Meta.new : Eip712Meta := {}

/-- Builder method `custom_signature` of `Eip712Meta`: sets the signature
bytes and nothing else. -/
def Eip712Meta.custom_signature (m : Eip712Meta) (sig : List Nat) : Eip712Meta :=
  { m with customSignature := some sig }

/-- Builder method `factory_deps` of `Eip712Meta`. -/
def Eip712Meta.factory_deps (m : Eip712Meta) (fd : List (List Nat)) : Eip712Meta :=
  { m with factoryDeps := fd }

/-- Modelled from the spec: the mutable transaction-request builder
`Eip712TransactionRequest` (crate module eip712, not under src/) with the
spec's defaults (spec section 3): the fixed type tag, zero numeric fields,
absent `to`, the network chain id, and a default custom-data block.
Numeric fields stand for U256 values. -/
structure Eip712TransactionRequest where
  txType : Nat := EIP712_TX_TYPE
  from_ : Nat := 0
  to_ : Option Nat := none
  value : Nat := 0
  data : List Nat := []
  nonce : Nat := 0
  gasPrice : Nat := 0
  maxFeePerGas : Nat := 0
  maxPriorityFeePerGas : Nat := 0
  gasLimit : Nat := 0
  chainId : Nat := ERA_CHAIN_ID
  customData : Eip712Meta := {}
  deriving DecidableEq

/-- `Eip712TransactionRequest::new()`. -/
def Eip712TransactionRequest.new : Eip712TransactionRequest := {}

/-- Modelled from the spec: the typed-data model `Eip712Transaction`
(crate module eip712, not under src/) — the canonical hashable field set
that is handed to the external signer (spec sections 3 and 4.2).  Absent
optional fields are carried as their zero values, per the schema. -/
structure Eip712Transaction where
  txType : Nat
  from_ : Nat
  to_ : Nat
  nonce : Nat
  gasLimit : Nat
  gasPerPubdataByteLimit : Nat
  maxFeePerGas : Nat
  maxPriorityFeePerGas : Nat
  paymaster : Nat
  paymasterInput : List Nat
  value : Nat
  data : List Nat
  factoryDeps : List (List Nat)
  chainId : Nat
  deriving DecidableEq

/-- Modelled from the spec: conversion of a request into the typed-data
model (the `TryInto<Eip712Transaction>` instance of crate module eip712,
not under src/).  Per spec section 4.3 the conversion fails with
`MissingField` when `to` is absent; the remaining fields are copied, with
absent optional values encoded as zero values per the schema (spec
section 4.2). -/
def tryIntoEip712Transaction (r : Eip712TransactionRequest) :
    Except ZKSWalletError Eip712Transaction :=
  match r.to_ with
  | none => .error (.MissingField ("to"))
  | some toAddr =>
    .ok
      { txType := r.txType
        from_ := r.from_
        to_ := toAddr
        nonce := r.nonce
        gasLimit := r.gasLimit
        gasPerPubdataByteLimit := r.customData.gasPerPubdata
        maxFeePerGas := r.maxFeePerGas
        maxPriorityFeePerGas := r.maxPriorityFeePerGas
        paymaster := (r.customData.paymasterParams.map Prod.fst).getD 0
        paymasterInput := (r.customData.paymasterParams.map Prod.snd).getD []
        value := r.value
        data := r.data
        factoryDeps := r.customData.factoryDeps
        chainId := r.chainId }

/-- Big-endian bytes of a U256 value with leading zero bytes removed
(the minimal big-endian form that RLP requires). -/
def beBytes256 (n : Nat) : List Nat :=
  ((List.range 32).map fun i => n / 256 ^ (31 - i) % 256).dropWhile fun b => b == 0

/-- Big-endian bytes of a 20-byte address. -/
def addressBe (a : Nat) : List Nat :=
  (List.range 20).map fun i => a / 256 ^ (19 - i) % 256

/-- RLP encoding of a byte string. -/
def rlp_bytes (bs : List Nat) : List Nat :=
  match bs with
  | [b] => if b < 128 then [b] else [129, b]
  | _ =>
    if bs.length < 56 then (128 + bs.length) :: bs
    else (183 + (beBytes256 bs.length).length) :: (beBytes256 bs.length ++ bs)

/-- RLP encoding of an unsigned number (minimal big-endian byte string). -/
def rlp_nat (n : Nat) : List Nat := rlp_bytes (beBytes256 n)

/-- RLP list header prepended to an already-encoded payload. -/
def rlp_list_payload (payload : List Nat) : List Nat :=
  if payload.length < 56 then (192 + payload.length) :: payload
  else (247 + (beBytes256 payload.length).length) :: (beBytes256 payload.length ++ payload)

/-- Modelled from the spec: the wire serializer `rlp_unsigned` of
`Eip712TransactionRequest` (crate module eip712, not under src/), spec
section 4.5: a structured encoding of every field in the fixed
protocol-mandated order — nonce, fee-market fields, gas limit,
destination, value, data, chain id repeated per protocol convention,
sender address, then the custom-data block's sub-fields (pubdata price
limit, factory dependencies as an ordered list of byte strings, custom
signature bytes, paymaster parameters).  Empty or absent optional fields
are encoded as their type's canonical empty representation, never
omitted from position.  The caller prepends the type tag byte. -/
def rlp_unsigned (r : Eip712TransactionRequest) : List Nat :=
  let m := r.customData
  rlp_list_payload
    (rlp_nat r.nonce ++ rlp_nat r.maxPriorityFeePerGas ++ rlp_nat r.maxFeePerGas ++
      rlp_nat r.gasLimit ++
      rlp_bytes (match r.to_ with | some a => addressBe a | none => []) ++
      rlp_nat r.value ++ rlp_bytes r.data ++
      rlp_nat r.chainId ++ rlp_bytes [] ++ rlp_bytes [] ++
      rlp_nat r.chainId ++ rlp_bytes (addressBe r.from_) ++
      rlp_nat m.gasPerPubdata ++
      rlp_list_payload ((m.factoryDeps.map rlp_bytes).flatten) ++
      rlp_bytes (m.customSignature.getD []) ++
      rlp_list_payload
        (match m.paymasterParams with
         | some (addr, input) => rlp_bytes (addressBe addr) ++ rlp_bytes input
         | none => []))

/-- Modelled from the spec: `hash_bytecode` (crate module eip712, not
under src/), spec section 4.1: the word count is length / 32; the function
fails with `InvalidBytecodeLength` when the length is not a multiple of
32, and with `BytecodeTooLong` when the word count exceeds 2^16 - 1.  On
success it returns the versioned digest: the fixed version marker byte, a
reserved zero byte, the big-endian word count in two bytes, then the tail
of the cryptographic digest of the bytecode.  The digest primitive itself
is external and passed in as `sha256`. -/
def hash_bytecode (sha256 : List Nat → List Nat) (bytecode : List Nat) :
    Except ZKSWalletError (List Nat) :=
  if bytecode.length % 32 ≠ 0 then .error .InvalidBytecodeLength
  else if 2 ^ 16 - 1 < bytecode.length / 32 then .error .BytecodeTooLong
  else
    let wordCount := bytecode.length / 32
    .ok (BYTECODE_VERSION_BYTE :: 0 :: (wordCount / 256 % 256) :: (wordCount % 256) ::
      (sha256 bytecode).drop 4)

/-- Constructor-argument tokens are opaque to this subsystem
(ethers `abi::Token`). -/
abbrev Token := Nat

/-- The constructor entry of a user contract ABI (ethers `abi::Abi`);
its input encoder is an external collaborator. -/
structure AbiConstructor where
  encode_input : List Nat → List Token → Except String (List Nat)

/-- The slice of a user contract ABI that wallet.rs consumes: whether a
constructor is defined, and its encoder. -/
structure Abi where
  ctor : Option AbiConstructor

/-- The slice of the ContractDeployer ABI artifact that wallet.rs
consumes: the `create` function entry (an opaque handle) when the parsed
artifact defines one. -/
structure DeployerAbi where
  createFn : Option Nat
  deriving DecidableEq

/-- The ethers `Eip1559TransactionRequest` builder, restricted to the
fields the plain `transfer` operation touches. -/
structure Eip1559TransactionRequest where
  from_ : Nat := 0
  to_ : Option Nat := none
  value : Nat := 0
  chainId : Nat := 0
  maxPriorityFeePerGas : Option Nat := none
  maxFeePerGas : Option Nat := none
  deriving DecidableEq

/-- The external collaborators of the core (spec section 6), as one
environment record.  Provider queries, the signer, transport, the ABI
encoder and the digest primitive are all functions of this record; the
deployer ABI artifact load result is `none` when opening or parsing the
local file fails. -/
structure Env where
  getTransactionCount : Except ZKSWalletError Nat
  getGasPrice : Except ZKSWalletError Nat
  getBalance : Nat → Except ZKSWalletError Nat
  estimateFee : Eip712TransactionRequest → Except ZKSWalletError Fee
  estimateFee1559 : Eip1559TransactionRequest → Except ZKSWalletError Fee
  signTypedData : Eip712Transaction → Except ZKSWalletError (List Nat)
  sendRawTransaction : List Nat → Except ZKSWalletError Nat
  sendTransaction : Eip1559TransactionRequest → Except ZKSWalletError Nat
  awaitTransaction : Nat → Except ZKSWalletError (Option TransactionReceipt)
  loadDeployerAbi : Option DeployerAbi
  encodeFunctionData : Nat → List Nat → List Nat → List Nat → Except ZKSWalletError (List Nat)
  sha256 : List Nat → List Nat

/-- One external call, with the arguments the operation handed over;
operations return the ordered list of the calls they made. -/
inductive ExtCall where
  | getTransactionCount (addr : Nat)
  | getGasPrice
  | getBalance (addr : Nat)
  | estimateFee (r : Eip712TransactionRequest)
  | estimateFee1559 (r : Eip1559TransactionRequest)
  | signTypedData (t : Eip712Transaction)
  | sendRawTransaction (bytes : List Nat)
  | sendTransaction (r : Eip1559TransactionRequest)
  | awaitTransaction (handle : Nat)
  | encodeFunctionData (fn : Nat) (salt bytecodeHash callData : List Nat)
  deriving DecidableEq

/-- The wallet state of `ZKSWallet` as far as the embedded operations
observe it: the signer address and whether each provider is connected. -/
structure ZKSWallet where
  address : Nat
  eraProvider : Option Unit
  ethProvider : Option Unit

/-- The byte sequences handed to `send_raw_transaction` in a trace. -/
def submittedBytes : List ExtCall → List (List Nat)
  | [] => []
  | .sendRawTransaction b :: t => b :: submittedBytes t
  | _ :: t => submittedBytes t

/-- The requests handed to `estimate_fee` in a trace. -/
def estimateFeeRequests : List ExtCall → List Eip712TransactionRequest
  | [] => []
  | .estimateFee r :: t => r :: estimateFeeRequests t
  | _ :: t => estimateFeeRequests t

/-- The salt arguments handed to the `create`-call encoder in a trace. -/
def encodeCreateSalts : List ExtCall → List (List Nat)
  | [] => []
  | .encodeFunctionData _ salt _ _ :: t => salt :: encodeCreateSalts t
  | _ :: t => encodeCreateSalts t

/-- wallet.rs lines 162-171: the transfer request after the builder chain
that sets the semantic fields plus the provider-resolved nonce and gas
price. -/
def transferReq1 (addr toA amount n g : Nat) : Eip712TransactionRequest :=
  { Eip712TransactionRequest.new with
      from_ := addr, to_ := some toA, value := amount, nonce := n, gasPrice := g }

/-- wallet.rs lines 174-177 and 325-328: apply the three estimated fee
fields to a request. -/
def applyFee (r : Eip712TransactionRequest) (fee : Fee) : Eip712TransactionRequest :=
  { r with
      maxPriorityFeePerGas := fee.maxPriorityFeePerGas
      maxFeePerGas := fee.maxFeePerGas
      gasLimit := fee.gasLimit }

/-- wallet.rs lines 181-182: the fully populated transfer request,
carrying the signature as the custom signature of a fresh custom-data
block. -/
def transferFinalReq (addr toA amount n g : Nat) (fee : Fee) (sig : List Nat) :
    Eip712TransactionRequest :=
  { applyFee (transferReq1 addr toA amount n g) fee with
      customData := Eip712Meta.new.custom_signature sig }

/-- wallet.rs `transfer_eip712` (lines 147-201): build the request, resolve
nonce and gas price, estimate and apply fees, convert to the typed-data
model, sign, attach the signature, serialize with the type tag prepended,
submit, await the receipt. -/
def transfer_eip712 (w : ZKSWallet) (env : Env) (toA amount : Nat) :
    Outcome TransactionReceipt × List ExtCall :=
  match w.eraProvider with
  | none => (.err (.CustomError ("no era provider")), [])
  | some _ =>
    match env.getTransactionCount with
    | .error e => (.err e, [.getTransactionCount w.address])
    | .ok n =>
      match env.getGasPrice with
      | .error e => (.err e, [.getTransactionCount w.address, .getGasPrice])
      | .ok g =>
        let req1 := transferReq1 w.address toA amount n g
        let t3 : List ExtCall :=
          [.getTransactionCount w.address, .getGasPrice, .estimateFee req1]
        match env.estimateFee req1 with
        | .error e => (.err e, t3)
        | .ok fee =>
          match tryIntoEip712Transaction (applyFee req1 fee) with
          | .error e => (.err e, t3)
          | .ok signable =>
            let t4 := t3 ++ [ExtCall.signTypedData signable]
            match env.signTypedData signable with
            | .error e => (.err e, t4)
            | .ok sig =>
              let raw :=
                EIP712_TX_TYPE :: rlp_unsigned (transferFinalReq w.address toA amount n g fee sig)
              let t5 := t4 ++ [ExtCall.sendRawTransaction raw]
              match env.sendRawTransaction raw with
              | .error e => (.err e, t5)
              | .ok p =>
                let t6 := t5 ++ [ExtCall.awaitTransaction p]
                match env.awaitTransaction p with
                | .error e => (.err e, t6)
                | .ok none => (.err (.CustomError ("no transaction receipt")), t6)
                | .ok (some receipt) => (.ok receipt, t6)

/-- wallet.rs `era_balance` (lines 97-106). -/
def era_balance (w : ZKSWallet) (env : Env) : Outcome Nat × List ExtCall :=
  match w.eraProvider with
  | none => (.err (.CustomError ("no era provider")), [])
  | some _ =>
    match env.getBalance w.address with
    | .error e => (.err e, [.getBalance w.address])
    | .ok b => (.ok b, [.getBalance w.address])

/-- wallet.rs `transfer` (lines 108-145): the plain EIP-1559 transfer via
`send_transaction`. -/
def transfer (w : ZKSWallet) (env : Env) (toA amount : Nat) :
    Outcome TransactionReceipt × List ExtCall :=
  match w.eraProvider with
  | none => (.err (.CustomError ("no era provider")), [])
  | some _ =>
    let req1 : Eip1559TransactionRequest :=
      { from_ := w.address, to_ := some toA, value := amount, chainId := ERA_CHAIN_ID }
    match env.estimateFee1559 req1 with
    | .error e => (.err e, [.estimateFee1559 req1])
    | .ok fee =>
      let req2 :=
        { req1 with
            maxPriorityFeePerGas := some fee.maxPriorityFeePerGas
            maxFeePerGas := some fee.maxFeePerGas }
      let t2 : List ExtCall := [.estimateFee1559 req1, .sendTransaction req2]
      match env.sendTransaction req2 with
      | .error e => (.err e, t2)
      | .ok p =>
        let t3 := t2 ++ [ExtCall.awaitTransaction p]
        match env.awaitTransaction p with
        | .error e => (.err e, t3)
        | .ok none => (.err (.CustomError ("no transaction receipt")), t3)
        | .ok (some receipt) => (.ok receipt, t3)

/-- wallet.rs lines 278-284: the deployment custom-data block, whose
factory dependencies are the main bytecode followed by the caller-supplied
dependencies in their given order. -/
def deployMeta (contractBytecode : List Nat) (contractDependencies : Option (List (List Nat))) :
    Eip712Meta :=
  Eip712Meta.new.factory_deps
    (contractBytecode ::
      (match contractDependencies with
       | some deps => deps
       | none => []))

/-- wallet.rs line 306: the fixed default salt of the deployment `create`
call, 32 zero bytes. -/
def SALT_ZERO : List Nat := List.replicate 32 0

/-- wallet.rs lines 308-318: the constructor call data — the bytecode alone
when the ABI has no constructor and no arguments were supplied, the
constructor's encoding of bytecode and arguments when a constructor
exists, and the constructor-arguments error otherwise. -/
def deployCallData (contractAbi : Abi) (contractBytecode : List Nat)
    (constructorParameters : List Token) : Except ZKSWalletError (List Nat) :=
  match contractAbi.ctor, constructorParameters.isEmpty with
  | none, false => .error .UnexpectedConstructorArguments
  | none, true => .ok contractBytecode
  | some c, _ =>
    match c.encode_input contractBytecode constructorParameters with
    | .error msg => .error (.CustomError msg)
    | .ok v => .ok v

/-- wallet.rs lines 299-321: the `data` block of the deployment request.
Loading the ContractDeployer ABI artifact and looking up its `create`
function both go through `unwrap`, so their failures are panics, not
errors; then the salt is fixed to 32 zero bytes, the bytecode hash and
constructor call data are computed, and the `create` call is ABI-encoded
by the external encoder. -/
def deployData (env : Env) (contractAbi : Abi) (contractBytecode : List Nat)
    (constructorParameters : List Token) : Outcome (List Nat) × List ExtCall :=
  match env.loadDeployerAbi with
  | none => (.panic ("failed to load ContractDeployer ABI"), [])
  | some deployerAbi =>
    match deployerAbi.createFn with
    | none => (.panic ("ContractDeployer ABI has no create function"), [])
    | some createF =>
      let salt := SALT_ZERO
      match hash_bytecode env.sha256 contractBytecode with
      | .error e => (.err e, [])
      | .ok bytecodeHash =>
        match deployCallData contractAbi contractBytecode constructorParameters with
        | .error e => (.err e, [])
        | .ok callData =>
          match env.encodeFunctionData createF salt bytecodeHash callData with
          | .error e => (.err e, [.encodeFunctionData createF salt bytecodeHash callData])
          | .ok d => (.ok d, [.encodeFunctionData createF salt bytecodeHash callData])

/-- wallet.rs lines 286-322: the deployment request after the builder
chain — type tag, sender, the fixed deployer address as destination, the
chain id, the provider-resolved nonce and gas price, the encoded `create`
call as data, and the deployment custom-data block. -/
def deployReq1 (addr n g : Nat) (data : List Nat) (meta : Eip712Meta) :
    Eip712TransactionRequest :=
  { Eip712TransactionRequest.new with
      txType := EIP712_TX_TYPE
      from_ := addr
      to_ := some CONTRACT_DEPLOYER_ADDR
      chainId := ERA_CHAIN_ID
      nonce := n
      gasPrice := g
      data := data
      customData := meta }

/-- wallet.rs lines 332-333: the fully populated deployment request; the
custom-data block is the one built before hashing with only its custom
signature now set. -/
def deployFinalReq (addr n g : Nat) (data : List Nat) (meta : Eip712Meta) (fee : Fee)
    (sig : List Nat) : Eip712TransactionRequest :=
  { applyFee (deployReq1 addr n g data meta) fee with
      customData := meta.custom_signature sig }

/-- wallet.rs `_deploy` (lines 263-350): build the custom-data block and
the deployment request (resolving nonce and gas price, then the data
block), estimate and apply fees, convert to the typed-data model, sign,
attach the signature to the original custom-data block, serialize with
the type tag prepended, submit, await the receipt. -/
def _deploy (w : ZKSWallet) (env : Env) (contractAbi : Abi) (contractBytecode : List Nat)
    (contractDependencies : Option (List (List Nat))) (constructorParameters : List Token) :
    Outcome TransactionReceipt × List ExtCall :=
  match w.eraProvider with
  | none => (.err (.CustomError ("no era provider")), [])
  | some _ =>
    let custom_data := deployMeta contractBytecode contractDependencies
    match env.getTransactionCount with
    | .error e => (.err e, [.getTransactionCount w.address])
    | .ok n =>
      match env.getGasPrice with
      | .error e => (.err e, [.getTransactionCount w.address, .getGasPrice])
      | .ok g =>
        let base : List ExtCall := [.getTransactionCount w.address, .getGasPrice]
        match deployData env contractAbi contractBytecode constructorParameters with
        | (.err e, t) => (.err e, base ++ t)
        | (.panic m, t) => (.panic m, base ++ t)
        | (.ok data, t) =>
          let req1 := deployReq1 w.address n g data custom_data
          let t3 := base ++ t ++ [ExtCall.estimateFee req1]
          match env.estimateFee req1 with
          | .error e => (.err e, t3)
          | .ok fee =>
            match tryIntoEip712Transaction (applyFee req1 fee) with
            | .error e => (.err e, t3)
            | .ok signable =>
              let t4 := t3 ++ [ExtCall.signTypedData signable]
              match env.signTypedData signable with
              | .error e => (.err e, t4)
              | .ok sig =>
                let raw :=
                  EIP712_TX_TYPE ::
                    rlp_unsigned (deployFinalReq w.address n g data custom_data fee sig)
                let t5 := t4 ++ [ExtCall.sendRawTransaction raw]
                match env.sendRawTransaction raw with
                | .error e => (.err e, t5)
                | .ok p =>
                  let t6 := t5 ++ [ExtCall.awaitTransaction p]
                  match env.awaitTransaction p with
                  | .error e => (.err e, t6)
                  | .ok none => (.err (.CustomError ("no transaction receipt")), t6)
                  | .ok (some receipt) => (.ok receipt, t6)

/-- wallet.rs `deploy` (lines 203-230): run `_deploy` and extract the
deployed contract address from the receipt. -/
def deploy (w : ZKSWallet) (env : Env) (contractAbi : Abi) (contractBytecode : List Nat)
    (contractDependencies : Option (List (List Nat))) (constructorParameters : List Token) :
    Outcome Nat × List ExtCall :=
  match _deploy w env contractAbi contractBytecode contractDependencies constructorParameters with
  | (.ok receipt, t) =>
    match receipt.contractAddress with
    | none => (.err (.CustomError ("no contract address")), t)
    | some a => (.ok a, t)
  | (.err e, t) => (.err e, t)
  | (.panic m, t) => (.panic m, t)

/-- The original claim's notion that the `create` salt is caller-overridable:
some invocation of `_deploy` hands the encoder a salt other than 32 zero
bytes. -/
def saltIsCallerOverridable : Prop :=
  ∃ (w : ZKSWallet) (env : Env) (contractAbi : Abi) (contractBytecode : List Nat)
      (contractDependencies : Option (List (List Nat))) (constructorParameters : List Token)
      (s : List Nat),
    s ∈ encodeCreateSalts
        ((_deploy w env contractAbi contractBytecode contractDependencies
          constructorParameters).2) ∧
    s ≠ List.replicate 32 0

/-- A concrete fee estimate used by the evaluation runs below. -/
def demoFee : Fee := ⟨100, 10, 21000⟩

/-- A concrete digest stand-in used by the evaluation runs below. -/
def demoSha : List Nat → List Nat := fun _ => List.replicate 32 0

/-- A concrete environment in which every external collaborator succeeds. -/
def demoEnv : Env :=
  { getTransactionCount := .ok 0
    getGasPrice := .ok 5
    getBalance := fun _ => .ok 100
    estimateFee := fun _ => .ok demoFee
    estimateFee1559 := fun _ => .ok demoFee
    signTypedData := fun _ => .ok (List.replicate 65 1)
    sendRawTransaction := fun _ => .ok 0
    sendTransaction := fun _ => .ok 0
    awaitTransaction := fun _ => .ok (some { contractAddress := some 7 })
    loadDeployerAbi := some ⟨some 1⟩
    encodeFunctionData := fun _ _ _ cd => .ok cd
    sha256 := demoSha }

/-- A concrete wallet with a connected era provider. -/
def demoWallet : ZKSWallet := ⟨1, some (), none⟩

/-- A concrete contract ABI without a constructor. -/
def demoAbi : Abi := ⟨none⟩

/-- A concrete 32-byte contract bytecode. -/
def demoBc : List Nat := List.replicate 32 0

/-- `demoEnv` with a failing nonce lookup. -/
def demoEnvNoNonce : Env :=
  { demoEnv with getTransactionCount := .error (.ProviderError ("nonce unavailable")) }

/-- `demoEnv` whose ContractDeployer ABI artifact fails to load. -/
def demoEnvNoAbi : Env := { demoEnv with loadDeployerAbi := none }

/-- A concrete contract ABI whose constructor encoder always fails. -/
def demoFailingAbi : Abi := ⟨some ⟨fun _ _ => .error ("constructor encoding failed")⟩⟩

/-- The typed-data value signed in the concrete transfer run below. -/
def demoTd : Eip712Transaction :=
  { txType := EIP712_TX_TYPE
    from_ := 1
    to_ := 2
    nonce := 0
    gasLimit := 21000
    gasPerPubdataByteLimit := DEFAULT_GAS_PER_PUBDATA_LIMIT
    maxFeePerGas := 100
    maxPriorityFeePerGas := 10
    paymaster := 0
    paymasterInput := []
    value := 1
    data := []
    factoryDeps := []
    chainId := ERA_CHAIN_ID }

/-- The bytes submitted by the concrete transfer run below. -/
def demoTransferRaw : List Nat :=
  EIP712_TX_TYPE :: rlp_unsigned (transferFinalReq 1 2 1 0 5 demoFee (List.replicate 65 1))

/-- The bytes submitted by the concrete deployment run below. -/
def demoDeployRaw : List Nat :=
  EIP712_TX_TYPE ::
    rlp_unsigned (deployFinalReq 1 0 5 demoBc (deployMeta demoBc none) demoFee
      (List.replicate 65 1))

/-- The request handed to fee estimation by the concrete deployment run
below. -/
def demoDeployReq : Eip712TransactionRequest :=
  deployReq1 1 0 5 demoBc (deployMeta demoBc none)

/-- The typed-data value signed in the concrete deployment run below. -/
def demoDeployTd : Eip712Transaction :=
  { txType := EIP712_TX_TYPE
    from_ := 1
    to_ := CONTRACT_DEPLOYER_ADDR
    nonce := 0
    gasLimit := 21000
    gasPerPubdataByteLimit := DEFAULT_GAS_PER_PUBDATA_LIMIT
    maxFeePerGas := 100
    maxPriorityFeePerGas := 10
    paymaster := 0
    paymasterInput := []
    value := 0
    data := demoBc
    factoryDeps := [demoBc, [1]]
    chainId := ERA_CHAIN_ID }

/-- Elimination lemma for a successful deployment-data construction: the
data is the external encoding of the `create` call over the 32-zero-byte
salt, the bytecode hash of the main bytecode, and the resolved constructor
call data, and the trace holds exactly that encoder call. -/
theorem deployData_ok_elim (env : Env) (contractAbi : Abi) (bc : List Nat)
    (params : List Token) (data : List Nat) (t : List ExtCall)
    (h : deployData env contractAbi bc params = (.ok data, t)) :
    ∃ f hsh cd,
      hash_bytecode env.sha256 bc = .ok hsh ∧
      deployCallData contractAbi bc params = .ok cd ∧
      env.encodeFunctionData f SALT_ZERO hsh cd = .ok data ∧
      t = [.encodeFunctionData f SALT_ZERO hsh cd] := by
  unfold deployData at h
  cases hL : env.loadDeployerAbi with
  | none => simp [hL] at h
  | some dA =>
    cases hF : dA.createFn with
    | none => simp [hL, hF] at h
    | some f =>
      cases hH : hash_bytecode env.sha256 bc with
      | error e => simp [hL, hF, hH] at h
      | ok hsh =>
        cases hC : deployCallData contractAbi bc params with
        | error e => simp [hL, hF, hH, hC] at h
        | ok cd =>
          cases hE : env.encodeFunctionData f SALT_ZERO hsh cd with
          | error e => simp [hL, hF, hH, hC, hE] at h
          | ok d =>
            simp only [hL, hF, hH, hC, hE] at h
            injection h with h1 h2
            injection h1 with h1
            exact ⟨f, hsh, cd, rfl, rfl, h1 ▸ hE, h2.symm⟩

/-- Elimination lemma for successful constructor-call-data resolution: the
result is the bytecode alone (no constructor, no arguments) or the
constructor encoder's output. -/
theorem deployCallData_ok_elim (contractAbi : Abi) (bc : List Nat) (params : List Token)
    (cd : List Nat) (h : deployCallData contractAbi bc params = .ok cd) :
    (contractAbi.ctor = none ∧ params = [] ∧ cd = bc) ∨
    (∃ c, contractAbi.ctor = some c ∧ c.encode_input bc params = .ok cd) := by
  unfold deployCallData at h
  cases hc : contractAbi.ctor with
  | none =>
    cases hp : params.isEmpty with
    | false => simp [hc, hp] at h
    | true =>
      have hpl : params = [] := by
        cases params
        · rfl
        · simp at hp
      simp only [hc, hp] at h
      injection h with h1
      exact Or.inl ⟨rfl, hpl, h1.symm⟩
  | some c =>
    simp only [hc] at h
    cases he : c.encode_input bc params with
    | error msg => simp [he] at h
    | ok v =>
      simp only [he] at h
      injection h with h1
      exact Or.inr ⟨c, rfl, by rw [he, h1]⟩

/-- `submittedBytes` distributes over trace concatenation. -/
theorem submittedBytes_append (a b : List ExtCall) :
    submittedBytes (a ++ b) = submittedBytes a ++ submittedBytes b := by
  induction a with
  | nil => rfl
  | cons x t ih => cases x <;> simp [submittedBytes, ih]

/-- `estimateFeeRequests` distributes over trace concatenation. -/
theorem estimateFeeRequests_append (a b : List ExtCall) :
    estimateFeeRequests (a ++ b) = estimateFeeRequests a ++ estimateFeeRequests b := by
  induction a with
  | nil => rfl
  | cons x t ih => cases x <;> simp [estimateFeeRequests, ih]

/-- `encodeCreateSalts` distributes over trace concatenation. -/
theorem encodeCreateSalts_append (a b : List ExtCall) :
    encodeCreateSalts (a ++ b) = encodeCreateSalts a ++ encodeCreateSalts b := by
  induction a with
  | nil => rfl
  | cons x t ih => cases x <;> simp [encodeCreateSalts, ih]

/-- The deployment-data construction performs no raw submissions. -/
theorem submittedBytes_deployData (env : Env) (contractAbi : Abi) (bc : List Nat)
    (params : List Token) :
    submittedBytes (deployData env contractAbi bc params).2 = [] := by
  simp only [deployData]
  repeat' split
  all_goals simp [submittedBytes]

/-- The deployment-data construction performs no fee estimations. -/
theorem estimateFeeRequests_deployData (env : Env) (contractAbi : Abi) (bc : List Nat)
    (params : List Token) :
    estimateFeeRequests (deployData env contractAbi bc params).2 = [] := by
  simp only [deployData]
  repeat' split
  all_goals simp [estimateFeeRequests]

/-- Every salt in the deployment-data construction's trace is the fixed
32-zero-byte default. -/
theorem deployData_salts (env : Env) (contractAbi : Abi) (bc : List Nat)
    (params : List Token) :
    ∀ s ∈ encodeCreateSalts (deployData env contractAbi bc params).2, s = SALT_ZERO := by
  intro s hs
  simp only [deployData] at hs
  repeat' split at hs
  all_goals simp [encodeCreateSalts] at hs
  all_goals exact hs

/-- Every salt handed to the `create`-call encoder by `_deploy` is the
32-zero-byte default. -/
theorem deploy_salt_zero (w : ZKSWallet) (env : Env) (contractAbi : Abi)
    (contractBytecode : List Nat) (contractDependencies : Option (List (List Nat)))
    (constructorParameters : List Token) :
    ∀ s ∈ encodeCreateSalts
        ((_deploy w env contractAbi contractBytecode contractDependencies
          constructorParameters).2),
      s = SALT_ZERO := by
  intro s hs
  rcases hdd : deployData env contractAbi contractBytecode constructorParameters with ⟨o, tD⟩
  have hsalt : ∀ x ∈ encodeCreateSalts tD, x = SALT_ZERO := by
    have h0 := deployData_salts env contractAbi contractBytecode constructorParameters
    rw [hdd] at h0
    exact h0
  simp only [_deploy, hdd] at hs
  cases o with
  | ok data =>
    dsimp only at hs
    repeat' split at hs
    all_goals simp [encodeCreateSalts_append, encodeCreateSalts] at hs
    all_goals exact hsalt s hs
  | err e =>
    dsimp only at hs
    repeat' split at hs
    all_goals simp [encodeCreateSalts_append, encodeCreateSalts] at hs
    all_goals exact hsalt s hs
  | panic m =>
    dsimp only at hs
    repeat' split at hs
    all_goals simp [encodeCreateSalts_append, encodeCreateSalts] at hs
    all_goals exact hsalt s hs

/-- C10: for a wallet whose era provider is absent, `era_balance`,
`transfer`, `transfer_eip712` and `deploy` each fail immediately with the
"no era provider" error and perform no external calls. -/
theorem c10_no_era_provider (addr : Nat) (ethp : Option Unit) (env : Env) (toA amount : Nat)
    (contractAbi : Abi) (contractBytecode : List Nat)
    (contractDependencies : Option (List (List Nat))) (constructorParameters : List Token) :
    era_balance ⟨addr, none, ethp⟩ env = (.err (.CustomError ("no era provider")), []) ∧
    transfer ⟨addr, none, ethp⟩ env toA amount =
      (.err (.CustomError ("no era provider")), []) ∧
    transfer_eip712 ⟨addr, none, ethp⟩ env toA amount =
      (.err (.CustomError ("no era provider")), []) ∧
    deploy ⟨addr, none, ethp⟩ env contractAbi contractBytecode contractDependencies
      constructorParameters = (.err (.CustomError ("no era provider")), []) :=
  ⟨rfl, rfl, rfl, rfl⟩

/-- C1: every byte sequence that `transfer_eip712` or `_deploy` hands to
`send_raw_transaction` is the fixed tag byte `EIP712_TX_TYPE` followed by
the structured encoding of the fully populated request, so its first byte
is the protocol's transaction-type tag. -/
theorem c1_submitted_bytes_are_tagged (w : ZKSWallet) (env : Env) (toA amount : Nat)
    (contractAbi : Abi) (contractBytecode : List Nat)
    (contractDependencies : Option (List (List Nat))) (constructorParameters : List Token) :
    (∀ b ∈ submittedBytes (transfer_eip712 w env toA amount).2,
      b.head? = some EIP712_TX_TYPE ∧ ∃ r, b = EIP712_TX_TYPE :: rlp_unsigned r) ∧
    (∀ b ∈ submittedBytes
        ((_deploy w env contractAbi contractBytecode contractDependencies
          constructorParameters).2),
      b.head? = some EIP712_TX_TYPE ∧ ∃ r, b = EIP712_TX_TYPE :: rlp_unsigned r) := by
  constructor
  · intro b hb
    simp only [transfer_eip712] at hb
    repeat' split at hb
    all_goals simp [submittedBytes, submittedBytes_append] at hb
    all_goals subst hb
    all_goals exact ⟨rfl, _, rfl⟩
  · intro b hb
    rcases hdd : deployData env contractAbi contractBytecode constructorParameters with ⟨o, tD⟩
    have htD : submittedBytes tD = [] := by
      have h0 := submittedBytes_deployData env contractAbi contractBytecode
        constructorParameters
      rw [hdd] at h0
      exact h0
    simp only [_deploy, hdd] at hb
    cases o with
    | ok data =>
      dsimp only at hb
      repeat' split at hb
      all_goals simp [submittedBytes, submittedBytes_append, htD] at hb
      all_goals subst hb
      all_goals exact ⟨rfl, _, rfl⟩
    | err e =>
      dsimp only at hb
      repeat' split at hb
      all_goals simp [submittedBytes, submittedBytes_append, htD] at hb
    | panic m =>
      dsimp only at hb
      repeat' split at hb
      all_goals simp [submittedBytes, submittedBytes_append, htD] at hb

/-- C5: `hash_bytecode` fails with `InvalidBytecodeLength` on any input
whose length is not a multiple of 32 and with `BytecodeTooLong` when the
word count reaches 2^16, and `_deploy` propagates such a failure to its
caller without estimating fees, signing or submitting. -/
theorem c5_hash_bytecode_length_errors :
    (∀ (sha : List Nat → List Nat) (bc : List Nat), bc.length % 32 ≠ 0 →
      hash_bytecode sha bc = .error .InvalidBytecodeLength) ∧
    (∀ (sha : List Nat → List Nat) (bc : List Nat), bc.length % 32 = 0 →
      2 ^ 16 ≤ bc.length / 32 → hash_bytecode sha bc = .error .BytecodeTooLong) ∧
    (∀ (addr : Nat) (ethp : Option Unit) (env : Env) (contractAbi : Abi) (bc : List Nat)
      (deps : Option (List (List Nat))) (params : List Token) (n g fn : Nat)
      (d : DeployerAbi) (e : ZKSWalletError),
      env.getTransactionCount = .ok n → env.getGasPrice = .ok g →
      env.loadDeployerAbi = some d → d.createFn = some fn →
      hash_bytecode env.sha256 bc = .error e →
      _deploy ⟨addr, some (), ethp⟩ env contractAbi bc deps params =
        (.err e, [.getTransactionCount addr, .getGasPrice])) := by
  refine ⟨?_, ?_, ?_⟩
  · intro sha bc h
    unfold hash_bytecode
    rw [if_pos h]
  · intro sha bc h1 h2
    unfold hash_bytecode
    rw [if_neg (by simp [h1]), if_pos (by omega)]
  · intro addr ethp env contractAbi bc deps params n g fn d e h1 h2 h3 h4 h5
    have hD : deployData env contractAbi bc params = (.err e, []) := by
      unfold deployData
      rw [h3]
      simp [h4, h5]
    simp [_deploy, h1, h2, hD]

/-- Witness for C1: in a concrete successful transfer run, the submitted
byte sequence starts with the type tag and is the tag followed by the
encoding of a request; likewise for a concrete deployment run. -/
theorem c1_witness :
    (demoTransferRaw.head? = some EIP712_TX_TYPE ∧
      ∃ r, demoTransferRaw = EIP712_TX_TYPE :: rlp_unsigned r) ∧
    (demoDeployRaw.head? = some EIP712_TX_TYPE ∧
      ∃ r, demoDeployRaw = EIP712_TX_TYPE :: rlp_unsigned r) := by
  have h1 : submittedBytes (transfer_eip712 demoWallet demoEnv 2 1).2 =
      [demoTransferRaw] := rfl
  have h2 : submittedBytes ((_deploy demoWallet demoEnv demoAbi demoBc none []).2) =
      [demoDeployRaw] := rfl
  have m1 : demoTransferRaw ∈ submittedBytes (transfer_eip712 demoWallet demoEnv 2 1).2 := by
    rw [h1]
    exact List.mem_singleton_self _
  have m2 : demoDeployRaw ∈
      submittedBytes ((_deploy demoWallet demoEnv demoAbi demoBc none []).2) := by
    rw [h2]
    exact List.mem_singleton_self _
  exact ⟨(c1_submitted_bytes_are_tagged demoWallet demoEnv 2 1 demoAbi demoBc none []).1 _ m1,
    (c1_submitted_bytes_are_tagged demoWallet demoEnv 2 1 demoAbi demoBc none []).2 _ m2⟩

/-- Witness for C5: a 33-byte input fails with `InvalidBytecodeLength`, a
2^16-word input fails with `BytecodeTooLong`, and a concrete deployment of
a 33-byte bytecode propagates the length error. -/
theorem c5_witness :
    hash_bytecode demoSha (List.replicate 33 0) = .error .InvalidBytecodeLength ∧
    hash_bytecode demoSha (List.replicate (32 * 2 ^ 16) 0) = .error .BytecodeTooLong ∧
    _deploy ⟨1, some (), none⟩ demoEnv demoAbi (List.replicate 33 0) none [] =
      (.err .InvalidBytecodeLength, [.getTransactionCount 1, .getGasPrice]) :=
  ⟨c5_hash_bytecode_length_errors.1 demoSha _ (by decide),
   c5_hash_bytecode_length_errors.2.1 demoSha _
     (by rw [List.length_replicate]; exact Nat.mul_mod_right _ _)
     (by rw [List.length_replicate, Nat.mul_div_cancel_left _ (by norm_num)]),
   c5_hash_bytecode_length_errors.2.2 1 none demoEnv demoAbi _ none [] 0 5 1 ⟨some 1⟩
     .InvalidBytecodeLength rfl rfl rfl rfl rfl⟩

/-- C3: with the ABI artifact loaded and the bytecode hash computed, a
deployment whose contract ABI has no constructor but whose constructor
parameters are non-empty fails with `UnexpectedConstructorArguments`
before any fee estimation, signing or submission, and a failing
constructor encoding surfaces as the matching encoding error. -/
theorem c3_unexpected_constructor_arguments (addr : Nat) (ethp : Option Unit) (env : Env)
    (bc : List Nat) (deps : Option (List (List Nat))) (params : List Token)
    (n g fn : Nat) (d : DeployerAbi) (hsh : List Nat)
    (h1 : env.getTransactionCount = .ok n) (h2 : env.getGasPrice = .ok g)
    (h3 : env.loadDeployerAbi = some d) (h4 : d.createFn = some fn)
    (h5 : hash_bytecode env.sha256 bc = .ok hsh) :
    (∀ contractAbi : Abi, contractAbi.ctor = none → params.isEmpty = false →
      _deploy ⟨addr, some (), ethp⟩ env contractAbi bc deps params =
        (.err .UnexpectedConstructorArguments,
          [.getTransactionCount addr, .getGasPrice])) ∧
    (∀ (contractAbi : Abi) (c : AbiConstructor) (msg : String),
      contractAbi.ctor = some c → c.encode_input bc params = .error msg →
      _deploy ⟨addr, some (), ethp⟩ env contractAbi bc deps params =
        (.err (.CustomError msg), [.getTransactionCount addr, .getGasPrice])) := by
  constructor
  · intro contractAbi hc hp
    have hcd : deployCallData contractAbi bc params =
        .error .UnexpectedConstructorArguments := by
      simp only [deployCallData, hc, hp]
    have hD : deployData env contractAbi bc params =
        (.err .UnexpectedConstructorArguments, []) := by
      simp only [deployData, h3, h4, h5, hcd]
    simp [_deploy, h1, h2, hD]
  · intro contractAbi c msg hc he
    have hcd : deployCallData contractAbi bc params = .error (.CustomError msg) := by
      simp only [deployCallData, hc, he]
    have hD : deployData env contractAbi bc params = (.err (.CustomError msg), []) := by
      simp only [deployData, h3, h4, h5, hcd]
    simp [_deploy, h1, h2, hD]

/-- Witness for C3: a concrete deployment with a constructor argument but
a constructorless ABI fails with `UnexpectedConstructorArguments`, and one
with a failing constructor encoder fails with its message. -/
theorem c3_witness :
    _deploy ⟨1, some (), none⟩ demoEnv demoAbi demoBc none [5] =
      (.err .UnexpectedConstructorArguments, [.getTransactionCount 1, .getGasPrice]) ∧
    _deploy ⟨1, some (), none⟩ demoEnv demoFailingAbi demoBc none [5] =
      (.err (.CustomError ("constructor encoding failed")),
        [.getTransactionCount 1, .getGasPrice]) :=
  ⟨(c3_unexpected_constructor_arguments 1 none demoEnv demoBc none [5] 0 5 1 ⟨some 1⟩
      (1 :: 0 :: 0 :: 1 :: List.replicate 28 0) rfl rfl rfl rfl rfl).1
      demoAbi rfl rfl,
   (c3_unexpected_constructor_arguments 1 none demoEnv demoBc none [5] 0 5 1 ⟨some 1⟩
      (1 :: 0 :: 0 :: 1 :: List.replicate 28 0) rfl rfl rfl rfl rfl).2
      demoFailingAbi ⟨fun _ _ => .error ("constructor encoding failed")⟩
      ("constructor encoding failed") rfl rfl⟩

/-- C2: every deployment request handed to fee estimation has the fixed
deployer contract address as destination, and its data is the external
encoding of the `create` call over the default salt, the bytecode hash of
the main bytecode, and the constructor call data — the bytecode alone when
the ABI has no constructor and no arguments were supplied, or the
constructor's encoding of bytecode and arguments otherwise. -/
theorem c2_deploy_request_destination_and_data (w : ZKSWallet) (env : Env)
    (contractAbi : Abi) (bc : List Nat) (deps : Option (List (List Nat)))
    (params : List Token) :
    ∀ r ∈ estimateFeeRequests ((_deploy w env contractAbi bc deps params).2),
      r.to_ = some CONTRACT_DEPLOYER_ADDR ∧
      ∃ fn hsh cd,
        hash_bytecode env.sha256 bc = .ok hsh ∧
        env.encodeFunctionData fn SALT_ZERO hsh cd = .ok r.data ∧
        ((contractAbi.ctor = none ∧ params = [] ∧ cd = bc) ∨
         (∃ c, contractAbi.ctor = some c ∧ c.encode_input bc params = .ok cd)) := by
  intro r hr
  rcases hdd : deployData env contractAbi bc params with ⟨o, tD⟩
  have hfeeD : estimateFeeRequests tD = [] := by
    have h0 := estimateFeeRequests_deployData env contractAbi bc params
    rw [hdd] at h0
    exact h0
  simp only [_deploy, hdd] at hr
  cases o with
  | ok data =>
    obtain ⟨fn, hsh, cd, hH, hC, hE, hT⟩ :=
      deployData_ok_elim env contractAbi bc params data tD hdd
    dsimp only at hr
    repeat' split at hr
    all_goals simp [estimateFeeRequests, estimateFeeRequests_append, hfeeD] at hr
    all_goals subst hr
    all_goals
      exact ⟨rfl, fn, hsh, cd, hH, hE, deployCallData_ok_elim contractAbi bc params cd hC⟩
  | err e =>
    dsimp only at hr
    repeat' split at hr
    all_goals simp [estimateFeeRequests, estimateFeeRequests_append, hfeeD] at hr
  | panic m =>
    dsimp only at hr
    repeat' split at hr
    all_goals simp [estimateFeeRequests, estimateFeeRequests_append, hfeeD] at hr

/-- Witness for C2: the fee-estimation request of a concrete deployment
run is addressed to the deployer contract and carries the encoded
`create` call. -/
theorem c2_witness :
    demoDeployReq.to_ = some CONTRACT_DEPLOYER_ADDR ∧
    ∃ fn hsh cd,
      hash_bytecode demoEnv.sha256 demoBc = .ok hsh ∧
      demoEnv.encodeFunctionData fn SALT_ZERO hsh cd = .ok demoDeployReq.data ∧
      ((demoAbi.ctor = none ∧ ([] : List Token) = [] ∧ cd = demoBc) ∨
       (∃ c, demoAbi.ctor = some c ∧ c.encode_input demoBc [] = .ok cd)) := by
  have h : estimateFeeRequests ((_deploy demoWallet demoEnv demoAbi demoBc none []).2) =
      [demoDeployReq] := rfl
  have m : demoDeployReq ∈
      estimateFeeRequests ((_deploy demoWallet demoEnv demoAbi demoBc none []).2) := by
    rw [h]
    exact List.mem_singleton_self _
  exact c2_deploy_request_destination_and_data demoWallet demoEnv demoAbi demoBc none [] _ m

/-- C4: `transfer_eip712` performs its steps in the mandated order — nonce
lookup, gas-price lookup, fee estimation on the semantically built
request, signing of the typed-data conversion of the request that already
carries the resolved nonce and fee fields, then submission of the
serialized bytes that carry the signature as the custom signature of the
custom-data block — and the signed typed data carries exactly the resolved
nonce and estimated fee fields. -/
theorem c4_transfer_orchestration (addr : Nat) (ethp : Option Unit) (env : Env)
    (toA amount n g : Nat) (fee : Fee) (td : Eip712Transaction) (sig : List Nat)
    (p : Nat) (receipt : TransactionReceipt)
    (h1 : env.getTransactionCount = .ok n) (h2 : env.getGasPrice = .ok g)
    (h3 : env.estimateFee (transferReq1 addr toA amount n g) = .ok fee)
    (h4 : tryIntoEip712Transaction (applyFee (transferReq1 addr toA amount n g) fee) =
      .ok td)
    (h5 : env.signTypedData td = .ok sig)
    (h6 : env.sendRawTransaction
      (EIP712_TX_TYPE :: rlp_unsigned (transferFinalReq addr toA amount n g fee sig)) =
      .ok p)
    (h7 : env.awaitTransaction p = .ok (some receipt)) :
    transfer_eip712 ⟨addr, some (), ethp⟩ env toA amount =
      (.ok receipt,
        [.getTransactionCount addr, .getGasPrice,
         .estimateFee (transferReq1 addr toA amount n g), .signTypedData td,
         .sendRawTransaction
           (EIP712_TX_TYPE :: rlp_unsigned (transferFinalReq addr toA amount n g fee sig)),
         .awaitTransaction p]) ∧
    td.nonce = n ∧ td.maxFeePerGas = fee.maxFeePerGas ∧
    td.maxPriorityFeePerGas = fee.maxPriorityFeePerGas ∧ td.gasLimit = fee.gasLimit ∧
    (transferFinalReq addr toA amount n g fee sig).customData.customSignature = some sig ∧
    (transferFinalReq addr toA amount n g fee sig).nonce = n := by
  dsimp only [tryIntoEip712Transaction, applyFee, transferReq1,
    Eip712TransactionRequest.new] at h4
  injection h4 with h4
  subst h4
  refine ⟨?_, rfl, rfl, rfl, rfl, rfl, rfl⟩
  simp only [transfer_eip712, h1, h2, h3]
  dsimp only [tryIntoEip712Transaction, applyFee, transferReq1, transferFinalReq,
    Eip712TransactionRequest.new]
  simp only [h5]
  simp only [transferFinalReq, applyFee, transferReq1, Eip712TransactionRequest.new] at h6
  simp only [h6, h7]
  rfl

/-- Witness for C4: the full orchestration equation of a concrete
successful transfer run. -/
theorem c4_witness :
    transfer_eip712 demoWallet demoEnv 2 1 =
      (.ok { contractAddress := some 7 },
        [.getTransactionCount 1, .getGasPrice, .estimateFee (transferReq1 1 2 1 0 5),
         .signTypedData demoTd,
         .sendRawTransaction
           (EIP712_TX_TYPE ::
             rlp_unsigned (transferFinalReq 1 2 1 0 5 demoFee (List.replicate 65 1))),
         .awaitTransaction 0]) :=
  (c4_transfer_orchestration 1 none demoEnv 2 1 0 5 demoFee demoTd (List.replicate 65 1)
    0 { contractAddress := some 7 } rfl rfl rfl rfl rfl rfl rfl).1

/-- C6: the build-hash-sign-serialize sequence is all-or-nothing: whenever
the nonce lookup, gas-price lookup, fee estimation, signing or raw
submission fails, `transfer_eip712` and `_deploy` return exactly that
error, the trace ends at the failing call (so nothing is submitted by any
failure before submission), and every external call appears at most once
(no retries). -/
theorem c6_all_or_nothing (addr : Nat) (ethp : Option Unit) (env : Env) (toA amount : Nat)
    (contractAbi : Abi) (bc : List Nat) (deps : Option (List (List Nat)))
    (params : List Token) :
    (∀ e, env.getTransactionCount = .error e →
      transfer_eip712 ⟨addr, some (), ethp⟩ env toA amount =
        (.err e, [.getTransactionCount addr]) ∧
      _deploy ⟨addr, some (), ethp⟩ env contractAbi bc deps params =
        (.err e, [.getTransactionCount addr])) ∧
    (∀ n e, env.getTransactionCount = .ok n → env.getGasPrice = .error e →
      transfer_eip712 ⟨addr, some (), ethp⟩ env toA amount =
        (.err e, [.getTransactionCount addr, .getGasPrice]) ∧
      _deploy ⟨addr, some (), ethp⟩ env contractAbi bc deps params =
        (.err e, [.getTransactionCount addr, .getGasPrice])) ∧
    (∀ n g e, env.getTransactionCount = .ok n → env.getGasPrice = .ok g →
      env.estimateFee (transferReq1 addr toA amount n g) = .error e →
      transfer_eip712 ⟨addr, some (), ethp⟩ env toA amount =
        (.err e, [.getTransactionCount addr, .getGasPrice,
          .estimateFee (transferReq1 addr toA amount n g)])) ∧
    (∀ n g fee td e, env.getTransactionCount = .ok n → env.getGasPrice = .ok g →
      env.estimateFee (transferReq1 addr toA amount n g) = .ok fee →
      tryIntoEip712Transaction (applyFee (transferReq1 addr toA amount n g) fee) =
        .ok td →
      env.signTypedData td = .error e →
      transfer_eip712 ⟨addr, some (), ethp⟩ env toA amount =
        (.err e, [.getTransactionCount addr, .getGasPrice,
          .estimateFee (transferReq1 addr toA amount n g), .signTypedData td])) ∧
    (∀ n g fee td sig e, env.getTransactionCount = .ok n → env.getGasPrice = .ok g →
      env.estimateFee (transferReq1 addr toA amount n g) = .ok fee →
      tryIntoEip712Transaction (applyFee (transferReq1 addr toA amount n g) fee) =
        .ok td →
      env.signTypedData td = .ok sig →
      env.sendRawTransaction
        (EIP712_TX_TYPE :: rlp_unsigned (transferFinalReq addr toA amount n g fee sig)) =
        .error e →
      transfer_eip712 ⟨addr, some (), ethp⟩ env toA amount =
        (.err e, [.getTransactionCount addr, .getGasPrice,
          .estimateFee (transferReq1 addr toA amount n g), .signTypedData td,
          .sendRawTransaction
            (EIP712_TX_TYPE ::
              rlp_unsigned (transferFinalReq addr toA amount n g fee sig))])) ∧
    (∀ n g data tD e, env.getTransactionCount = .ok n → env.getGasPrice = .ok g →
      deployData env contractAbi bc params = (.ok data, tD) →
      env.estimateFee (deployReq1 addr n g data (deployMeta bc deps)) = .error e →
      _deploy ⟨addr, some (), ethp⟩ env contractAbi bc deps params =
        (.err e, [.getTransactionCount addr, .getGasPrice] ++ tD ++
          [.estimateFee (deployReq1 addr n g data (deployMeta bc deps))])) ∧
    (∀ n g data tD fee td e, env.getTransactionCount = .ok n → env.getGasPrice = .ok g →
      deployData env contractAbi bc params = (.ok data, tD) →
      env.estimateFee (deployReq1 addr n g data (deployMeta bc deps)) = .ok fee →
      tryIntoEip712Transaction
        (applyFee (deployReq1 addr n g data (deployMeta bc deps)) fee) = .ok td →
      env.signTypedData td = .error e →
      _deploy ⟨addr, some (), ethp⟩ env contractAbi bc deps params =
        (.err e, [.getTransactionCount addr, .getGasPrice] ++ tD ++
          [.estimateFee (deployReq1 addr n g data (deployMeta bc deps)),
           .signTypedData td])) ∧
    (∀ n g data tD fee td sig e, env.getTransactionCount = .ok n →
      env.getGasPrice = .ok g →
      deployData env contractAbi bc params = (.ok data, tD) →
      env.estimateFee (deployReq1 addr n g data (deployMeta bc deps)) = .ok fee →
      tryIntoEip712Transaction
        (applyFee (deployReq1 addr n g data (deployMeta bc deps)) fee) = .ok td →
      env.signTypedData td = .ok sig →
      env.sendRawTransaction
        (EIP712_TX_TYPE ::
          rlp_unsigned (deployFinalReq addr n g data (deployMeta bc deps) fee sig)) =
        .error e →
      _deploy ⟨addr, some (), ethp⟩ env contractAbi bc deps params =
        (.err e, [.getTransactionCount addr, .getGasPrice] ++ tD ++
          [.estimateFee (deployReq1 addr n g data (deployMeta bc deps)),
           .signTypedData td,
           .sendRawTransaction
             (EIP712_TX_TYPE ::
               rlp_unsigned (deployFinalReq addr n g data (deployMeta bc deps) fee sig))])) := by
  refine ⟨?_, ?_, ?_, ?_, ?_, ?_, ?_, ?_⟩
  · intro e h
    exact ⟨by simp [transfer_eip712, h], by simp [_deploy, h]⟩
  · intro n e h1 h2
    exact ⟨by simp [transfer_eip712, h1, h2], by simp [_deploy, h1, h2]⟩
  · intro n g e h1 h2 h3
    simp [transfer_eip712, h1, h2, h3]
  · intro n g fee td e h1 h2 h3 h4 h5
    simp only [transfer_eip712, h1, h2, h3, h4, h5]
    rfl
  · intro n g fee td sig e h1 h2 h3 h4 h5 h6
    simp only [transfer_eip712, h1, h2, h3, h4, h5, h6]
    rfl
  · intro n g data tD e h1 h2 hD h3
    simp only [_deploy, h1, h2, hD, h3]
  · intro n g data tD fee td e h1 h2 hD h3 h4 h5
    simp only [_deploy, h1, h2, hD, h3, h4, h5]
    simp
  · intro n g data tD fee td sig e h1 h2 hD h3 h4 h5 h6
    simp only [_deploy, h1, h2, hD, h3, h4, h5, h6]
    simp

/-- Witness for C6: with a failing nonce lookup, both operations return
the provider error and the trace stops at that single call. -/
theorem c6_witness :
    transfer_eip712 demoWallet demoEnvNoNonce 2 1 =
      (.err (.ProviderError ("nonce unavailable")), [.getTransactionCount 1]) ∧
    _deploy demoWallet demoEnvNoNonce demoAbi demoBc none [] =
      (.err (.ProviderError ("nonce unavailable")), [.getTransactionCount 1]) :=
  (c6_all_or_nothing 1 none demoEnvNoNonce 2 1 demoAbi demoBc none []).1
    (.ProviderError ("nonce unavailable")) rfl

/-- Counterexample for C7: when the ContractDeployer ABI artifact cannot
be loaded, `deploy` panics (the source unwraps the artifact load) instead
of surfacing an error value to its caller — contradicting the claim that
this failure surfaces to the caller of deploy rather than aborting the
process. -/
theorem c7_counterexample :
    (deploy demoWallet demoEnvNoAbi demoAbi demoBc none []).1 =
      .panic ("failed to load ContractDeployer ABI") := by
  decide

/-- C7 amended: failures carried as `Result` values inside the deployment
data construction surface as errors to the caller of `deploy`, but a
failure to load or parse the ContractDeployer ABI artifact, or a missing
`create` entry in it, aborts via panic instead of returning an error. -/
theorem c7_error_propagation (addr : Nat) (ethp : Option Unit) (env : Env)
    (contractAbi : Abi) (bc : List Nat) (deps : Option (List (List Nat)))
    (params : List Token) (n g : Nat)
    (h1 : env.getTransactionCount = .ok n) (h2 : env.getGasPrice = .ok g) :
    (env.loadDeployerAbi = none →
      deploy ⟨addr, some (), ethp⟩ env contractAbi bc deps params =
        (.panic ("failed to load ContractDeployer ABI"),
          [.getTransactionCount addr, .getGasPrice])) ∧
    (∀ d, env.loadDeployerAbi = some d → d.createFn = none →
      deploy ⟨addr, some (), ethp⟩ env contractAbi bc deps params =
        (.panic ("ContractDeployer ABI has no create function"),
          [.getTransactionCount addr, .getGasPrice])) ∧
    (∀ e tD, deployData env contractAbi bc params = (.err e, tD) →
      (deploy ⟨addr, some (), ethp⟩ env contractAbi bc deps params).1 = .err e) := by
  refine ⟨?_, ?_, ?_⟩
  · intro hA
    have hD : deployData env contractAbi bc params =
        (.panic ("failed to load ContractDeployer ABI"), []) := by
      simp only [deployData, hA]
    simp [deploy, _deploy, h1, h2, hD]
  · intro d hA hF
    have hD : deployData env contractAbi bc params =
        (.panic ("ContractDeployer ABI has no create function"), []) := by
      simp only [deployData, hA, hF]
    simp [deploy, _deploy, h1, h2, hD]
  · intro e tD hD
    simp [deploy, _deploy, h1, h2, hD]

/-- Witness for C7 amended: a concrete deployment whose artifact load
fails panics with the artifact-load message after the two provider
lookups. -/
theorem c7_witness :
    deploy demoWallet demoEnvNoAbi demoAbi demoBc none [] =
      (.panic ("failed to load ContractDeployer ABI"),
        [.getTransactionCount 1, .getGasPrice]) :=
  (c7_error_propagation 1 none demoEnvNoAbi demoAbi demoBc none [] 0 5 rfl rfl).1 rfl

/-- Counterexample for C8: the salt of the deployment `create` call is not
caller-overridable — no invocation of `_deploy` ever hands the encoder a
salt other than the 32-zero-byte default (the deployment API takes no salt
parameter; overriding is only a TODO comment in the source). -/
theorem c8_counterexample : ¬ saltIsCallerOverridable := by
  rintro ⟨w, env, contractAbi, bc, deps, params, s, hs, hne⟩
  exact hne (deploy_salt_zero w env contractAbi bc deps params s hs)

/-- C8 amended: in deployment construction the salt argument of the
`create` call is always the fixed 32-zero-byte default; the caller cannot
override it. -/
theorem c8_salt_fixed_default (w : ZKSWallet) (env : Env) (contractAbi : Abi)
    (bc : List Nat) (deps : Option (List (List Nat))) (params : List Token) :
    ∀ s ∈ encodeCreateSalts ((_deploy w env contractAbi bc deps params).2),
      s = List.replicate 32 0 :=
  fun s hs => deploy_salt_zero w env contractAbi bc deps params s hs

/-- Witness for C8 amended: the salt of a concrete deployment run is the
32-zero-byte default. -/
theorem c8_witness : SALT_ZERO = List.replicate 32 0 := by
  have h : encodeCreateSalts ((_deploy demoWallet demoEnv demoAbi demoBc none []).2) =
      [SALT_ZERO] := rfl
  have m : SALT_ZERO ∈
      encodeCreateSalts ((_deploy demoWallet demoEnv demoAbi demoBc none []).2) := by
    rw [h]
    exact List.mem_singleton_self _
  exact c8_salt_fixed_default demoWallet demoEnv demoAbi demoBc none [] _ m

/-- C9: in a successful deployment the trace is pinned down — the factory
dependencies of the custom-data block are exactly the main bytecode
followed by the supplied dependencies in their given order, both in the
signed typed data and in the submitted request, and attaching the
signature changes only the `customSignature` field of the custom-data
block between hash computation and serialization (at hash time the
signature is absent). -/
theorem c9_factory_deps_frame (addr : Nat) (ethp : Option Unit) (env : Env)
    (contractAbi : Abi) (bc : List Nat) (deps : Option (List (List Nat)))
    (params : List Token) (n g : Nat) (data : List Nat) (tD : List ExtCall)
    (fee : Fee) (td : Eip712Transaction) (sig : List Nat) (p : Nat)
    (receipt : TransactionReceipt)
    (h1 : env.getTransactionCount = .ok n) (h2 : env.getGasPrice = .ok g)
    (hD : deployData env contractAbi bc params = (.ok data, tD))
    (h3 : env.estimateFee (deployReq1 addr n g data (deployMeta bc deps)) = .ok fee)
    (h4 : tryIntoEip712Transaction
      (applyFee (deployReq1 addr n g data (deployMeta bc deps)) fee) = .ok td)
    (h5 : env.signTypedData td = .ok sig)
    (h6 : env.sendRawTransaction
      (EIP712_TX_TYPE ::
        rlp_unsigned (deployFinalReq addr n g data (deployMeta bc deps) fee sig)) =
      .ok p)
    (h7 : env.awaitTransaction p = .ok (some receipt)) :
    _deploy ⟨addr, some (), ethp⟩ env contractAbi bc deps params =
      (.ok receipt,
        [.getTransactionCount addr, .getGasPrice] ++ tD ++
          [.estimateFee (deployReq1 addr n g data (deployMeta bc deps)),
           .signTypedData td,
           .sendRawTransaction
             (EIP712_TX_TYPE ::
               rlp_unsigned (deployFinalReq addr n g data (deployMeta bc deps) fee sig)),
           .awaitTransaction p]) ∧
    td.factoryDeps = bc :: deps.getD [] ∧
    (deployFinalReq addr n g data (deployMeta bc deps) fee sig).customData =
      { deployMeta bc deps with customSignature := some sig } ∧
    (deployFinalReq addr n g data (deployMeta bc deps) fee sig).customData.factoryDeps =
      bc :: deps.getD [] ∧
    (deployReq1 addr n g data (deployMeta bc deps)).customData.customSignature = none := by
  have h4' := h4
  dsimp only [tryIntoEip712Transaction, applyFee, deployReq1, deployMeta,
    Eip712Meta.new, Eip712Meta.factory_deps, Eip712TransactionRequest.new] at h4'
  injection h4' with h4'
  refine ⟨?_, ?_, rfl, ?_, rfl⟩
  · simp only [_deploy, h1, h2, hD]
    simp only [h3, h4, h5, h6, h7]
    simp
  · rw [← h4']
    cases deps <;> rfl
  · cases deps <;> rfl

/-- Witness for C9: in a concrete deployment with one extra dependency,
the signed typed data's factory dependencies are the main bytecode
followed by that dependency, and the final custom-data block is the
hash-time block with only the signature added. -/
theorem c9_witness :
    demoDeployTd.factoryDeps = demoBc :: (some [[1]] : Option (List (List Nat))).getD [] ∧
    (deployFinalReq 1 0 5 demoBc (deployMeta demoBc (some [[1]])) demoFee
        (List.replicate 65 1)).customData =
      { deployMeta demoBc (some [[1]]) with
          customSignature := some (List.replicate 65 1) } :=
  ⟨(c9_factory_deps_frame 1 none demoEnv demoAbi demoBc (some [[1]]) [] 0 5 demoBc
      [.encodeFunctionData 1 SALT_ZERO (1 :: 0 :: 0 :: 1 :: List.replicate 28 0) demoBc]
      demoFee demoDeployTd (List.replicate 65 1) 0 { contractAddress := some 7 }
      rfl rfl rfl rfl rfl rfl rfl rfl).2.1,
   (c9_factory_deps_frame 1 none demoEnv demoAbi demoBc (some [[1]]) [] 0 5 demoBc
      [.encodeFunctionData 1 SALT_ZERO (1 :: 0 :: 0 :: 1 :: List.replicate 28 0) demoBc]
      demoFee demoDeployTd (List.replicate 65 1) 0 { contractAddress := some 7 }
      rfl rfl rfl rfl rfl rfl rfl rfl).2.2.1⟩

end ZKS
